import Mathlib

/-!
Shallow embedding of `src/ml_service/main.py` (MPIT 2026 ML Service):
a FastAPI service with two routes, POST /embed and GET /health, plus a
`__main__` block that reads the PORT environment variable.

The pretrained SentenceTransformer model is a third-party resource loaded
at startup; its `encode` method (composed with `.tolist()`, which turns the
numpy array into a plain list of floats) is modelled as a field of type
`String → Except String (List Float)`: `Except.ok v` is a successful
inference returning the list `v`, `Except.error msg` is an exception whose
`str(e)` is `msg`.  Python exceptions raised by the handler are modelled
with `Except`; `HTTPException(status_code, detail)` is a structure.
-/

/-- Name of the configured model, `MODEL_NAME` in `main.py` line 11. -/
def MODEL_NAME : String := "paraphrase-multilingual-MiniLM-L12-v2"

/-- The process-wide loaded model (`model = SentenceTransformer(MODEL_NAME)`):
its identifying name and its encode function composed with `.tolist()`.
The encode function is a mathematical function of the input string, matching
the deterministic, read-only inference of the loaded model. -/
structure Model where
  name : String
  encode : String → Except String (List Float)

/-- Request body schema, `class EmbeddingRequest(BaseModel): text: str`. -/
structure EmbeddingRequest where
  text : String

/-- Successful response body of POST /embed: `{"vector": ...}`. -/
structure EmbedResponse where
  vector : List Float

/-- FastAPI `HTTPException(status_code=..., detail=...)`. -/
structure HTTPException where
  status_code : Nat
  detail : String

/-- The POST /embed handler `create_embedding` (main.py lines 19-29):
if `not req.text` (the string is empty) return `{"vector": [0.0] * 384}`;
otherwise call `model.encode(req.text)` and return `{"vector": embedding.tolist()}`,
turning any exception `e` into `HTTPException(status_code=500, detail=str(e))`. -/
def create_embedding (model : Model) (req : EmbeddingRequest) :
    Except HTTPException EmbedResponse :=
  if req.text = "" then
    Except.ok { vector := List.replicate 384 (0.0 : Float) }
  else
    match model.encode req.text with
    | Except.ok v => Except.ok { vector := v }
    | Except.error e => Except.error { status_code := 500, detail := e }

/-- Number of times `create_embedding` invokes `model.encode`, read off the
handler's structure: the empty-text early return makes no call; the other
branch contains exactly one `model.encode(req.text)` call and no retry. -/
def create_embedding_encode_calls (req : EmbeddingRequest) : Nat :=
  if req.text = "" then 0 else 1

/-- The GET /health handler (main.py lines 31-33):
returns `{"status": "ok", "model": MODEL_NAME}`. -/
structure HealthResponse where
  status : String
  model : String

/-- The GET /health handler body. -/
def health : HealthResponse :=
  { status := "ok", model := MODEL_NAME }

/-- A model `m` has dimension `d` when every successful encode result has
length `d` (the SentenceTransformer's fixed output dimensionality; 384 for
the configured model, per the comment on main.py line 10). -/
def Model.hasDim (m : Model) (d : Nat) : Prop :=
  ∀ s v, m.encode s = Except.ok v → v.length = d

/-- JSON values, for modelling the raw request body that FastAPI/pydantic
validates against `EmbeddingRequest` before the handler runs. -/
inductive Json where
  | null : Json
  | bool : Bool → Json
  | num : Int → Json
  | str : String → Json
  | arr : List Json → Json
  | obj : List (String × Json) → Json

/-- First value bound to `key` in a JSON object's field list. -/
def lookupField : List (String × Json) → String → Option Json
  | [], _ => none
  | (k, v) :: rest, key => if k = key then some v else lookupField rest key

/-- Pydantic validation of the request body against
`class EmbeddingRequest(BaseModel): text: str`: the body must be a JSON
object whose `text` field is present and is a string; anything else fails
validation. -/
def validate_EmbeddingRequest (body : Json) : Option EmbeddingRequest :=
  match body with
  | Json.obj fields =>
    match lookupField fields "text" with
    | some (Json.str s) => some { text := s }
    | _ => none
  | _ => none

/-- FastAPI's dispatch of a POST /embed request: the body is validated
against `EmbeddingRequest`; on validation failure FastAPI answers 422
Unprocessable Entity without running the handler; otherwise the handler
runs, a returned value becomes a 200 response and a raised `HTTPException`
becomes a response with its status code. Result: (status code, body). -/
def post_embed (m : Model) (body : Json) : Nat × Option EmbedResponse :=
  match validate_EmbeddingRequest body with
  | none => (422, none)
  | some req =>
    match create_embedding m req with
    | Except.ok r => (200, some r)
    | Except.error e => (e.status_code, none)

/-- Characters stripped by Python's `str.strip()` before `int()` parses a
string (the ASCII whitespace characters). -/
def isPyStripWs (c : Char) : Bool :=
  c = ' ' || c = '\t' || c = '\n' || c = '\r' || c = '\x0b' || c = '\x0c'

/-- Leading and trailing whitespace removal, as `int()` applies to its
string argument. -/
def pyStrip (s : String) : List Char :=
  ((s.toList.dropWhile isPyStripWs).reverse.dropWhile isPyStripWs).reverse

/-- No two adjacent underscores (Python's `int()` rejects `1__0`). -/
def noDoubleUnderscore : List Char → Bool
  | [] => true
  | [_] => true
  | c :: c2 :: rest =>
    if c = '_' && c2 = '_' then false else noDoubleUnderscore (c2 :: rest)

/-- Validity of the digit part of a Python decimal integer literal:
nonempty, starts and ends with a digit, only digits and single
underscores between digits. -/
def validDigitsUnderscore (cs : List Char) : Bool :=
  !cs.isEmpty &&
  cs.head?.all Char.isDigit &&
  cs.getLast?.all Char.isDigit &&
  cs.all (fun c => c.isDigit || c = '_') &&
  noDoubleUnderscore cs

/-- Numeric value of a digit-and-underscore sequence, underscores skipped. -/
def digitsValue (cs : List Char) : Nat :=
  cs.foldl (fun acc c => if c.isDigit then acc * 10 + (c.toNat - 48) else acc) 0

/-- Python's `int(s)` for a string argument in base 10 (ASCII decimal
digits): strip whitespace, allow one optional sign, then a valid
digits-with-underscores sequence; `none` models the `ValueError` raised
on anything else. -/
def pyInt (s : String) : Option Int :=
  match pyStrip s with
  | '+' :: rest =>
    if validDigitsUnderscore rest then some (digitsValue rest : Int) else none
  | '-' :: rest =>
    if validDigitsUnderscore rest then some (-(digitsValue rest : Int)) else none
  | cs =>
    if validDigitsUnderscore cs then some (digitsValue cs : Int) else none

/-- The `__main__` block's port computation (main.py line 36):
`port = int(os.getenv("PORT", 5000))`. When PORT is unset, `os.getenv`
returns the default `5000` (already an int) and `int(5000) = 5000`; when
PORT is set to string `s`, `int(s)` parses it, raising `ValueError` on
failure. The result is the port passed to `uvicorn.run`. -/
def startup_port (envPORT : Option String) : Except String Int :=
  match envPORT with
  | none => Except.ok 5000
  | some s =>
    match pyInt s with
    | some n => Except.ok n
    | none =>
      Except.error ("invalid literal for int() with base 10: '" ++ s ++ "'")

/-- A model whose encode always succeeds with a 384-long vector, used to
instantiate theorems at concrete inputs. -/
def okModel : Model :=
  { name := MODEL_NAME
    encode := fun _ => Except.ok (List.replicate 384 (1.0 : Float)) }

/-- A model whose encode always raises an exception with text "boom",
used to instantiate the failure-path theorems at concrete inputs. -/
def errModel : Model :=
  { name := MODEL_NAME
    encode := fun _ => Except.error "boom" }

/-- Claim C1: every successful response of POST /embed carries a vector of
exactly the model's fixed dimensionality (384 for the configured model),
including when the input text is empty. -/
theorem embed_vector_length_eq_model_dim (m : Model) (hm : m.hasDim 384)
    (req : EmbeddingRequest) (r : EmbedResponse)
    (h : create_embedding m req = Except.ok r) : r.vector.length = 384 := by
  unfold create_embedding at h
  split at h
  · cases h
    exact List.length_replicate ..
  · split at h
    · rename_i v he
      cases h
      exact hm req.text v he
    · cases h

/-- Witness for C1 at a concrete model of dimension 384 and input "hi". -/
theorem embed_vector_length_eq_model_dim_witness :
    ({ vector := List.replicate 384 (1.0 : Float) } : EmbedResponse).vector.length = 384 :=
  embed_vector_length_eq_model_dim okModel
    (fun s v hv => by
      simp only [okModel] at hv
      injection hv with h
      subst h
      exact List.length_replicate ..)
    { text := "hi" } { vector := List.replicate 384 (1.0 : Float) } rfl

/-- Claim C2: for the empty input string, POST /embed returns a vector of
exactly 384 zeros, independently of the loaded model and without invoking
its encode function (the handler makes zero encode calls on this branch). -/
theorem embed_empty_text_zero_vector (m : Model) :
    create_embedding m { text := "" } =
      Except.ok { vector := List.replicate 384 (0.0 : Float) } ∧
    create_embedding_encode_calls { text := "" } = 0 :=
  ⟨rfl, rfl⟩

/-- Claim C3: for a non-empty input on which the model's encode succeeds
with vector `v`, the handler returns exactly `v` as the response vector,
adding, dropping and reordering nothing. -/
theorem embed_nonempty_passthrough (m : Model) (req : EmbeddingRequest)
    (hne : req.text ≠ "") (v : List Float)
    (he : m.encode req.text = Except.ok v) :
    create_embedding m req = Except.ok { vector := v } := by
  unfold create_embedding
  rw [if_neg hne, he]

/-- Witness for C3 at a concrete model and input "hi". -/
theorem embed_nonempty_passthrough_witness :
    create_embedding okModel { text := "hi" } =
      Except.ok { vector := List.replicate 384 (1.0 : Float) } :=
  embed_nonempty_passthrough okModel { text := "hi" } (by decide)
    (List.replicate 384 (1.0 : Float)) rfl

/-- Claim C4: when the encode call raises an exception with text `msg`,
the handler fails with HTTPException of status 500 whose detail is exactly
`msg`, and the encode call is made exactly once (no retry). -/
theorem embed_inference_error_http500 (m : Model) (req : EmbeddingRequest)
    (hne : req.text ≠ "") (msg : String)
    (he : m.encode req.text = Except.error msg) :
    create_embedding m req =
      Except.error { status_code := 500, detail := msg } ∧
    create_embedding_encode_calls req = 1 := by
  constructor
  · unfold create_embedding
    rw [if_neg hne, he]
  · unfold create_embedding_encode_calls
    rw [if_neg hne]

/-- Witness for C4 at a concrete always-raising model and input "x". -/
theorem embed_inference_error_http500_witness :
    create_embedding errModel { text := "x" } =
      Except.error { status_code := 500, detail := "boom" } ∧
    create_embedding_encode_calls { text := "x" } = 1 :=
  embed_inference_error_http500 errModel { text := "x" } (by decide) "boom" rfl

/-- Claim C5: two calls of the handler on the same loaded model with equal
non-empty input strings return identical results (the operation is a
function of its input; the loaded model's encode is deterministic). -/
theorem embed_deterministic (m : Model) (req1 req2 : EmbeddingRequest)
    (hne : req1.text ≠ "") (h : req1.text = req2.text) :
    create_embedding m req1 = create_embedding m req2 := by
  have hreq : req1 = req2 := by
    cases req1
    cases req2
    simp_all
  rw [hreq]

/-- Witness for C5: two calls with input "hi" agree. -/
theorem embed_deterministic_witness :
    create_embedding okModel { text := "hi" } =
      create_embedding okModel { text := "hi" } :=
  embed_deterministic okModel { text := "hi" } { text := "hi" } (by decide) rfl

/-- Claim C6: GET /health returns exactly
status "ok" and model "paraphrase-multilingual-MiniLM-L12-v2", the model
field being MODEL_NAME, the name the process-wide model was loaded from. -/
theorem health_fixed_response :
    health = { status := "ok", model := "paraphrase-multilingual-MiniLM-L12-v2" } ∧
    health.model = MODEL_NAME :=
  ⟨rfl, rfl⟩

/-- Claim C7: a request body that fails validation against
EmbeddingRequest (e.g. lacks a string `text` field) is answered with the
client error 422, not 500, and the handler never runs: the response is the
same for every loaded model. -/
theorem embed_malformed_body_client_error (m m2 : Model) (body : Json)
    (h : validate_EmbeddingRequest body = none) :
    post_embed m body = (422, none) ∧
    post_embed m body = post_embed m2 body ∧
    400 ≤ (post_embed m body).1 ∧ (post_embed m body).1 < 500 := by
  have e1 : post_embed m body = (422, none) := by
    unfold post_embed
    rw [h]
  have e2 : post_embed m2 body = (422, none) := by
    unfold post_embed
    rw [h]
  refine ⟨e1, e1.trans e2.symm, ?_, ?_⟩ <;> rw [e1] <;> decide

/-- Witness for C7 at the empty JSON object body. -/
theorem embed_malformed_body_client_error_witness :
    post_embed okModel (Json.obj []) = (422, none) ∧
    post_embed okModel (Json.obj []) = post_embed errModel (Json.obj []) ∧
    400 ≤ (post_embed okModel (Json.obj [])).1 ∧
    (post_embed okModel (Json.obj [])).1 < 500 :=
  embed_malformed_body_client_error okModel errModel (Json.obj []) rfl

/-- Claim C8: the listening port comes from the single PORT environment
variable: unset yields the default 5000, and a value parsing as an integer
yields that integer. -/
theorem port_from_env_or_default (s : String) (n : Int)
    (h : pyInt s = some n) :
    startup_port none = Except.ok 5000 ∧
    startup_port (some s) = Except.ok n := by
  refine ⟨rfl, ?_⟩
  simp only [startup_port]
  rw [h]

/-- Witness for C8 at PORT="8080". -/
theorem port_from_env_or_default_witness :
    startup_port none = Except.ok 5000 ∧
    startup_port (some "8080") = Except.ok 8080 :=
  port_from_env_or_default "8080" 8080 rfl

/-- Claim C9: POST /embed can fail only when the input text is non-empty
and the encode call raised; contrapositively, the empty input always takes
the zero-vector branch and the 500 error is unreachable there. -/
theorem embed_error_only_nonempty_encode_failure (m : Model)
    (req : EmbeddingRequest) (e : HTTPException)
    (h : create_embedding m req = Except.error e) :
    req.text ≠ "" ∧ m.encode req.text = Except.error e.detail ∧
    e.status_code = 500 := by
  unfold create_embedding at h
  split at h
  · cases h
  · rename_i hne
    split at h
    · cases h
    · rename_i msg he
      cases h
      exact ⟨hne, he, rfl⟩

/-- Witness for C9 at an always-raising model and input "x". -/
theorem embed_error_only_nonempty_encode_failure_witness :
    ({ text := "x" } : EmbeddingRequest).text ≠ "" ∧
    errModel.encode "x" =
      Except.error ({ status_code := 500, detail := "boom" } : HTTPException).detail ∧
    ({ status_code := 500, detail := "boom" } : HTTPException).status_code = 500 :=
  embed_error_only_nonempty_encode_failure errModel { text := "x" }
    { status_code := 500, detail := "boom" } rfl

/-- Claim C10: a PORT value that does not parse as an integer makes the
startup computation raise ValueError rather than fall back to 5000. -/
theorem port_invalid_env_raises (s : String) (h : pyInt s = none) :
    startup_port (some s) =
      Except.error ("invalid literal for int() with base 10: '" ++ s ++ "'") := by
  simp only [startup_port]
  rw [h]

/-- Witness for C10 at PORT="abc". -/
theorem port_invalid_env_raises_witness :
    startup_port (some "abc") =
      Except.error ("invalid literal for int() with base 10: 'abc'") :=
  port_invalid_env_raises "abc" rfl
